import Mathlib

/-!
Shallow embedding of the WSI dynamic protocol-binding layer found in
src/wsi/wsi_wayland.c, src/wsi/wsi_wayland.h and src/wsi/wsi_xcb.h.

The embedding keeps the source's names.  Pointers are modelled as natural
numbers, NULL pointers as `none : Option Nat`.  The static interface
descriptor tables of wsi_wayland.c are transcribed verbatim; the calls
a wrapper function makes into the dynamically loaded client library are
reified as values of small effect types.
-/

/-- Identities of the nineteen wl_*/xdg_* interface descriptors defined in
wsi_wayland.c (displayInterfaceWayland .. popupInterfaceXDG). -/
inductive WLIface where
  | display
  | registry
  | callback
  | compositor
  | shm
  | shmPool
  | buffer
  | surface
  | region
  | output
  | seat
  | pointer
  | keyboard
  | touch
  | wmBase
  | positioner
  | surfaceXDG
  | toplevel
  | popup
deriving DecidableEq

/-- One `struct wl_message` entry: method/event name, signature string, and
the contents of its nested-interface array (`types`).  The list holds
exactly the entries of the C array object the entry points at, with C's
zero-initialized tail entries as `none`. -/
structure WLMessage where
  name : String
  signature : String
  types : List (Option WLIface)
deriving DecidableEq

/-- One `struct wl_interface` descriptor: name (none models the NULL name of
the uninitialized display placeholder), advertised max version, methods and
events. -/
structure WLInterface where
  name : Option String
  version : Nat
  methods : List WLMessage
  events : List WLMessage
deriving DecidableEq

/-- The shared `static const struct wl_interface* nullInterface[8]` array:
eight NULL entries. -/
def nullInterface : List (Option WLIface) :=
  [none, none, none, none, none, none, none, none]

/-- A zero `struct wl_message`, used as `getD` default. -/
def msgNil : WLMessage :=
  { name := "", signature := "", types := [] }

/-- `const struct wl_interface displayInterfaceWayland;` — declared with no
initializer (TODO in the source), hence all-zero. -/
def displayInterfaceWayland : WLInterface :=
  { name := none, version := 0, methods := [], events := [] }

/-- wl_registry descriptor. -/
def registryInterfaceWayland : WLInterface :=
  { name := some "wl_registry"
    version := 1
    methods := [
      { name := "bind", signature := "usun", types := nullInterface }]
    events := [
      { name := "global", signature := "usu", types := nullInterface },
      { name := "global_remove", signature := "u", types := nullInterface }] }

/-- wl_callback descriptor. -/
def callbackInterfaceWayland : WLInterface :=
  { name := some "wl_callback"
    version := 1
    methods := []
    events := [
      { name := "done", signature := "u", types := nullInterface }] }

/-- wl_compositor descriptor. -/
def compositorInterfaceWayland : WLInterface :=
  { name := some "wl_compositor"
    version := 6
    methods := [
      { name := "create_surface", signature := "n", types := [some WLIface.surface] },
      { name := "create_region", signature := "n", types := [some WLIface.region] }]
    events := [] }

/-- wl_shm descriptor. -/
def shmInterfaceWayland : WLInterface :=
  { name := some "wl_shm"
    version := 2
    methods := [
      { name := "create_pool", signature := "nhi", types := [some WLIface.shmPool, none, none] },
      { name := "release", signature := "2", types := nullInterface }]
    events := [
      { name := "format", signature := "u", types := nullInterface }] }

/-- wl_shm_pool descriptor. -/
def shmPoolInterfaceWayland : WLInterface :=
  { name := some "wl_shm_pool"
    version := 2
    methods := [
      { name := "create_buffer", signature := "niiiiu",
        types := [some WLIface.buffer, none, none, none, none, none] },
      { name := "destroy", signature := "", types := nullInterface },
      { name := "resize", signature := "i", types := nullInterface }]
    events := [] }

/-- wl_buffer descriptor. -/
def bufferInterfaceWayland : WLInterface :=
  { name := some "wl_buffer"
    version := 1
    methods := [
      { name := "destroy", signature := "", types := nullInterface }]
    events := [
      { name := "release", signature := "", types := nullInterface }] }

/-- wl_surface descriptor. -/
def surfaceInterfaceWayland : WLInterface :=
  { name := some "wl_surface"
    version := 6
    methods := [
      { name := "destroy", signature := "", types := nullInterface },
      { name := "attach", signature := "?oii", types := [some WLIface.buffer, none, none] },
      { name := "damage", signature := "iiii", types := nullInterface },
      { name := "frame", signature := "n", types := [some WLIface.callback] },
      { name := "set_opaque_region", signature := "?o", types := [some WLIface.region] },
      { name := "set_input_region", signature := "?o", types := [some WLIface.region] },
      { name := "commit", signature := "", types := nullInterface },
      { name := "set_buffer_transform", signature := "2i", types := nullInterface },
      { name := "set_buffer_scale", signature := "3i", types := nullInterface },
      { name := "damage_buffer", signature := "4iiii", types := nullInterface },
      { name := "offset", signature := "5ii", types := nullInterface }]
    events := [
      { name := "enter", signature := "o", types := [some WLIface.output] },
      { name := "leave", signature := "o", types := [some WLIface.output] },
      { name := "preferred_buffer_scale", signature := "6i", types := nullInterface },
      { name := "preferred_buffer_transform", signature := "6u", types := nullInterface }] }

/-- wl_region descriptor. -/
def regionInterfaceWayland : WLInterface :=
  { name := some "wl_region"
    version := 1
    methods := [
      { name := "destroy", signature := "", types := nullInterface },
      { name := "add", signature := "iiii", types := nullInterface },
      { name := "subtract", signature := "iiii", types := nullInterface }]
    events := [] }

/-- wl_output descriptor. -/
def outputInterfaceWayland : WLInterface :=
  { name := some "wl_output"
    version := 4
    methods := [
      { name := "release", signature := "3", types := nullInterface }]
    events := [
      { name := "geometry", signature := "iiiiissi", types := nullInterface },
      { name := "mode", signature := "uiii", types := nullInterface },
      { name := "done", signature := "2", types := nullInterface },
      { name := "scale", signature := "2i", types := nullInterface },
      { name := "name", signature := "4s", types := nullInterface },
      { name := "description", signature := "4s", types := nullInterface }] }

/-- wl_seat descriptor. -/
def seatInterfaceWayland : WLInterface :=
  { name := some "wl_seat"
    version := 9
    methods := [
      { name := "get_pointer", signature := "n", types := [some WLIface.pointer] },
      { name := "get_keyboard", signature := "n", types := [some WLIface.keyboard] },
      { name := "get_touch", signature := "n", types := [some WLIface.touch] },
      { name := "release", signature := "5", types := nullInterface }]
    events := [
      { name := "capabilities", signature := "u", types := nullInterface },
      { name := "name", signature := "2s", types := nullInterface }] }

/-- wl_pointer descriptor. -/
def pointerInterfaceWayland : WLInterface :=
  { name := some "wl_pointer"
    version := 7
    methods := [
      { name := "set_cursor", signature := "u?oii",
        types := [none, some WLIface.surface, none, none] },
      { name := "release", signature := "3", types := nullInterface }]
    events := [
      { name := "enter", signature := "uoff", types := [none, some WLIface.surface, none, none] },
      { name := "leave", signature := "uo", types := [none, some WLIface.surface] },
      { name := "motion", signature := "uff", types := nullInterface },
      { name := "button", signature := "uuuu", types := nullInterface },
      { name := "axis", signature := "uuf", types := nullInterface },
      { name := "frame", signature := "5", types := nullInterface },
      { name := "axis_source", signature := "5u", types := nullInterface },
      { name := "axis_stop", signature := "5uu", types := nullInterface },
      { name := "axis_discrete", signature := "5ui", types := nullInterface }] }

/-- wl_keyboard descriptor. -/
def keyboardInterfaceWayland : WLInterface :=
  { name := some "wl_keyboard"
    version := 9
    methods := [
      { name := "release", signature := "3", types := nullInterface }]
    events := [
      { name := "keymap", signature := "uhu", types := nullInterface },
      { name := "enter", signature := "uoa", types := [none, some WLIface.surface, none] },
      { name := "leave", signature := "uo", types := [none, some WLIface.surface] },
      { name := "key", signature := "uuuu", types := nullInterface },
      { name := "modifiers", signature := "uuuuu", types := nullInterface },
      { name := "repeat_info", signature := "4ii", types := nullInterface }] }

/-- wl_touch descriptor. -/
def touchInterfaceWayland : WLInterface :=
  { name := some "wl_touch"
    version := 9
    methods := [
      { name := "release", signature := "3", types := nullInterface }]
    events := [
      { name := "down", signature := "uuoiff",
        types := [none, none, some WLIface.surface, none, none, none] },
      { name := "up", signature := "uui", types := nullInterface },
      { name := "motion", signature := "uiff", types := nullInterface },
      { name := "frame", signature := "", types := nullInterface },
      { name := "cancel", signature := "", types := nullInterface },
      { name := "shape", signature := "6iff", types := nullInterface },
      { name := "orientation", signature := "6if", types := nullInterface }] }

/-- xdg_wm_base descriptor. -/
def wmBaseInterfaceXDG : WLInterface :=
  { name := some "xdg_wm_base"
    version := 4
    methods := [
      { name := "destroy", signature := "", types := nullInterface },
      { name := "create_positioner", signature := "n", types := [some WLIface.positioner] },
      { name := "get_xdg_surface", signature := "no",
        types := [some WLIface.surfaceXDG, some WLIface.surface] },
      { name := "pong", signature := "u", types := nullInterface }]
    events := [
      { name := "ping", signature := "u", types := nullInterface }] }

/-- xdg_positioner descriptor. -/
def positionerInterfaceXDG : WLInterface :=
  { name := some "xdg_positioner"
    version := 4
    methods := [
      { name := "destroy", signature := "", types := nullInterface },
      { name := "set_size", signature := "ii", types := nullInterface },
      { name := "set_anchor_rect", signature := "iiii", types := nullInterface },
      { name := "set_anchor", signature := "u", types := nullInterface },
      { name := "set_gravity", signature := "u", types := nullInterface },
      { name := "set_constraint_adjustment", signature := "u", types := nullInterface },
      { name := "set_offset", signature := "ii", types := nullInterface },
      { name := "set_reactive", signature := "3", types := nullInterface },
      { name := "set_parent_size", signature := "3ii", types := nullInterface },
      { name := "set_parent_configure", signature := "3u", types := nullInterface }]
    events := [] }

/-- xdg_surface descriptor. -/
def surfaceInterfaceXDG : WLInterface :=
  { name := some "xdg_surface"
    version := 4
    methods := [
      { name := "destroy", signature := "", types := nullInterface },
      { name := "get_toplevel", signature := "n", types := [some WLIface.toplevel] },
      { name := "get_popup", signature := "n?oo",
        types := [some WLIface.popup, some WLIface.surfaceXDG, some WLIface.positioner] },
      { name := "set_window_geometry", signature := "iiii", types := nullInterface },
      { name := "ack_configure", signature := "u", types := nullInterface }]
    events := [
      { name := "configure", signature := "u", types := nullInterface }] }

/-- xdg_toplevel descriptor. -/
def toplevelInterfaceXDG : WLInterface :=
  { name := some "xdg_toplevel"
    version := 6
    methods := [
      { name := "destroy", signature := "", types := nullInterface },
      { name := "set_parent", signature := "?o", types := [some WLIface.toplevel] },
      { name := "set_title", signature := "s", types := nullInterface },
      { name := "set_app_id", signature := "s", types := nullInterface },
      { name := "show_window_menu", signature := "ouii",
        types := [some WLIface.seat, none, none, none] },
      { name := "move", signature := "ou", types := [some WLIface.seat, none] },
      { name := "resize", signature := "ouu", types := [some WLIface.seat, none, none] },
      { name := "set_max_size", signature := "ii", types := nullInterface },
      { name := "set_min_size", signature := "ii", types := nullInterface },
      { name := "set_maximized", signature := "", types := nullInterface },
      { name := "unset_maximized", signature := "", types := nullInterface },
      { name := "set_fullscreen", signature := "?o", types := [some WLIface.output] },
      { name := "unset_fullscreen", signature := "", types := nullInterface },
      { name := "set_minimized", signature := "", types := nullInterface }]
    events := [
      { name := "configure", signature := "iia", types := nullInterface },
      { name := "close", signature := "", types := nullInterface },
      { name := "configure_bounds", signature := "4ii", types := nullInterface },
      { name := "wm_capabilities", signature := "5a", types := nullInterface }] }

/-- xdg_popup descriptor. -/
def popupInterfaceXDG : WLInterface :=
  { name := some "xdg_popup"
    version := 4
    methods := [
      { name := "destroy", signature := "", types := nullInterface },
      { name := "grab", signature := "ou", types := [some WLIface.seat, none] },
      { name := "reposition", signature := "3ou", types := [some WLIface.positioner, none] }]
    events := [
      { name := "configure", signature := "iiii", types := nullInterface },
      { name := "popup_done", signature := "", types := nullInterface },
      { name := "repositioned", signature := "3u", types := nullInterface }] }

/-- Descriptor lookup by interface identity. -/
def interfaceOf : WLIface → WLInterface
  | .display => displayInterfaceWayland
  | .registry => registryInterfaceWayland
  | .callback => callbackInterfaceWayland
  | .compositor => compositorInterfaceWayland
  | .shm => shmInterfaceWayland
  | .shmPool => shmPoolInterfaceWayland
  | .buffer => bufferInterfaceWayland
  | .surface => surfaceInterfaceWayland
  | .region => regionInterfaceWayland
  | .output => outputInterfaceWayland
  | .seat => seatInterfaceWayland
  | .pointer => pointerInterfaceWayland
  | .keyboard => keyboardInterfaceWayland
  | .touch => touchInterfaceWayland
  | .wmBase => wmBaseInterfaceXDG
  | .positioner => positionerInterfaceXDG
  | .surfaceXDG => surfaceInterfaceXDG
  | .toplevel => toplevelInterfaceXDG
  | .popup => popupInterfaceXDG

/-- Argument positions of a signature string: every character except the
leading minimum-version digits and the nullability marker.  Mirrors how
libwayland walks a signature when encoding or decoding. -/
def sigArgs (s : String) : List Char :=
  s.toList.filter (fun c => ¬ (c = '?' ∨ c.isDigit))

/-- Minimum-version gate of a signature: its leading digits read as a
number, defaulting to 1 when the signature carries no digit. -/
def sigMinVersion (s : String) : Nat :=
  let ds := s.toList.takeWhile Char.isDigit
  if ds = [] then 1 else ds.foldl (fun a c => 10 * a + (c.toNat - 48)) 0

/-- Well-formedness of one descriptor entry: the nested-interface array is
long enough for every declared argument position (no over-read), and a
non-NULL interface entry occurs only at an object-typed position within the
declared argument count. -/
def msgTypesOK (m : WLMessage) : Prop :=
  (sigArgs m.signature).length ≤ m.types.length ∧
  ∀ j ∈ List.range m.types.length,
    m.types.getD j none ≠ none →
      j < (sigArgs m.signature).length ∧
        ((sigArgs m.signature).getD j ' ' = 'o' ∨ (sigArgs m.signature).getD j ' ' = 'n')

instance (m : WLMessage) : Decidable (msgTypesOK m) := by
  unfold msgTypesOK
  infer_instance

/-! ## Library loader (openWayland / closeWayland) -/

/-- The ten file-scoped function-pointer variables of wsi_wayland.c
(displayConnect .. proxyMarshalFlags), `none` modelling a NULL pointer. -/
structure WLFns where
  displayConnect : Option Nat
  displayDisconnect : Option Nat
  displayDispatch : Option Nat
  displayDispatchPending : Option Nat
  displayFlush : Option Nat
  displayRoundtrip : Option Nat
  proxyDestroy : Option Nat
  proxyAddListener : Option Nat
  proxyGetVersion : Option Nat
  proxyMarshalFlags : Option Nat
deriving DecidableEq

/-- All ten pointers NULL: the state of the static variables before the
first call of openWayland. -/
def wlFnsNull : WLFns :=
  { displayConnect := none, displayDisconnect := none, displayDispatch := none
    displayDispatchPending := none, displayFlush := none, displayRoundtrip := none
    proxyDestroy := none, proxyAddListener := none, proxyGetVersion := none
    proxyMarshalFlags := none }

/-- Outcome of openWayland: its return value, the final contents of the ten
static pointer variables, and whether dlclose was called on the handle. -/
structure OpenOutcome where
  ret : Option Nat
  fns : WLFns
  dlclosed : Bool
deriving DecidableEq

/-- The ten symbol names openWayland resolves, in resolution order. -/
def requiredSymbolsWayland : List String :=
  ["wl_display_connect", "wl_display_disconnect", "wl_display_dispatch",
   "wl_display_dispatch_pending", "wl_display_flush", "wl_display_roundtrip",
   "wl_proxy_destroy", "wl_proxy_add_listener", "wl_proxy_get_version",
   "wl_proxy_marshal_flags"]

/-- openWayland of wsi_wayland.c.  `dlopenRes` is what dlopen returned for
LIBWAYLAND and `dlsym` the resolver; `st0` is the incoming state of the ten
static pointers.  Each dlsym result is assigned to its variable before the
NULL check, exactly as in the C; on a missing symbol the function dlcloses
the handle and returns NULL, leaving the assignments already made in place. -/
def openWayland (dlopenRes : Option Nat) (dlsym : Nat → String → Option Nat)
    (st0 : WLFns) : OpenOutcome :=
  match dlopenRes with
  | none => { ret := none, fns := st0, dlclosed := false }
  | some handle =>
    let c1 := dlsym handle "wl_display_connect"
    let st1 : WLFns := { st0 with displayConnect := c1 }
    if c1 = none then { ret := none, fns := st1, dlclosed := true } else
    let c2 := dlsym handle "wl_display_disconnect"
    let st2 : WLFns := { st1 with displayDisconnect := c2 }
    if c2 = none then { ret := none, fns := st2, dlclosed := true } else
    let c3 := dlsym handle "wl_display_dispatch"
    let st3 : WLFns := { st2 with displayDispatch := c3 }
    if c3 = none then { ret := none, fns := st3, dlclosed := true } else
    let c4 := dlsym handle "wl_display_dispatch_pending"
    let st4 : WLFns := { st3 with displayDispatchPending := c4 }
    if c4 = none then { ret := none, fns := st4, dlclosed := true } else
    let c5 := dlsym handle "wl_display_flush"
    let st5 : WLFns := { st4 with displayFlush := c5 }
    if c5 = none then { ret := none, fns := st5, dlclosed := true } else
    let c6 := dlsym handle "wl_display_roundtrip"
    let st6 : WLFns := { st5 with displayRoundtrip := c6 }
    if c6 = none then { ret := none, fns := st6, dlclosed := true } else
    let c7 := dlsym handle "wl_proxy_destroy"
    let st7 : WLFns := { st6 with proxyDestroy := c7 }
    if c7 = none then { ret := none, fns := st7, dlclosed := true } else
    let c8 := dlsym handle "wl_proxy_add_listener"
    let st8 : WLFns := { st7 with proxyAddListener := c8 }
    if c8 = none then { ret := none, fns := st8, dlclosed := true } else
    let c9 := dlsym handle "wl_proxy_get_version"
    let st9 : WLFns := { st8 with proxyGetVersion := c9 }
    if c9 = none then { ret := none, fns := st9, dlclosed := true } else
    let c10 := dlsym handle "wl_proxy_marshal_flags"
    let st10 : WLFns := { st9 with proxyMarshalFlags := c10 }
    if c10 = none then { ret := none, fns := st10, dlclosed := true } else
    { ret := some handle, fns := st10, dlclosed := false }

/-- A concrete resolver that knows only wl_display_connect: every other
symbol is missing. -/
def symConnectOnly : Nat → String → Option Nat :=
  fun _ s => if s = "wl_display_connect" then some 1 else none

/-! ## Wrapper calls into the loaded library -/

/-- The opcode macros of the generated wayland/xdg-shell client headers used
by wsi_wayland.c; each equals the index of the method in its interface's
method list. -/
def WL_DISPLAY_GET_REGISTRY : Nat := 1

def WL_REGISTRY_BIND : Nat := 0

def WL_COMPOSITOR_CREATE_SURFACE : Nat := 0

def WL_SHM_CREATE_POOL : Nat := 0

def WL_SHM_RELEASE : Nat := 1

def WL_SHM_POOL_CREATE_BUFFER : Nat := 0

def WL_SHM_POOL_DESTROY : Nat := 1

def WL_BUFFER_DESTROY : Nat := 0

def WL_SURFACE_DESTROY : Nat := 0

def WL_SURFACE_FRAME : Nat := 3

def WL_SURFACE_DAMAGE_BUFFER : Nat := 9

def XDG_WM_BASE_DESTROY : Nat := 0

def XDG_WM_BASE_CREATE_POSITIONER : Nat := 1

def XDG_WM_BASE_GET_XDG_SURFACE : Nat := 2

def XDG_POSITIONER_DESTROY : Nat := 0

def XDG_SURFACE_DESTROY : Nat := 0

def XDG_SURFACE_GET_TOPLEVEL : Nat := 1

def XDG_SURFACE_GET_POPUP : Nat := 2

def XDG_TOPLEVEL_DESTROY : Nat := 0

def WL_SEAT_GET_POINTER : Nat := 0

def WL_SEAT_GET_KEYBOARD : Nat := 1

def WL_SEAT_RELEASE : Nat := 3

def WL_POINTER_RELEASE : Nat := 1

def WL_KEYBOARD_RELEASE : Nat := 0

/-- WL_MARSHAL_FLAG_DESTROY of wayland-client-core.h. -/
def WL_MARSHAL_FLAG_DESTROY : Nat := 1

/-- The single call a wsi_wayland.c wrapper makes into the loaded client
library: either wl_proxy_marshal_flags (opcode, target interface for a
new-object request, the version argument, flags) or wl_proxy_destroy. -/
inductive Call where
  | marshal (opcode : Nat) (iface : Option WLIface) (version : Nat) (flags : Nat)
  | destroyProxy
deriving DecidableEq

/-- Version a new proxy created by a marshal call is bound at: the
documented contract of wl_proxy_marshal_flags binds the returned proxy at
exactly the version argument of the call. -/
def newProxyVersion : Call → Option Nat
  | .marshal _ (some _) v _ => some v
  | _ => none

/-- Wire-level steps of one call, per the documented contract of
libwayland: wl_proxy_marshal_flags encodes and queues the request, then
destroys the proxy when WL_MARSHAL_FLAG_DESTROY is set; wl_proxy_destroy
only destroys the proxy locally, sending nothing. -/
inductive WireStep where
  | send (opcode : Nat)
  | destroyed
deriving DecidableEq

/-- Wire effect of one call (see WireStep). -/
def marshalWire : Call → List WireStep
  | .marshal opcode _ _ flags =>
    if flags % 2 = 1 then [.send opcode, .destroyed] else [.send opcode]
  | .destroyProxy => [.destroyed]

/-- displayGetRegistryWayland: marshals WL_DISPLAY_GET_REGISTRY against
registryInterfaceWayland at proxyGetVersion(dpy) = `v`. -/
def displayGetRegistryWayland (v : Nat) : Call :=
  Call.marshal WL_DISPLAY_GET_REGISTRY (some WLIface.registry) v 0

/-- compositorCreateSurfaceWayland: marshals WL_COMPOSITOR_CREATE_SURFACE
against surfaceInterfaceWayland at proxyGetVersion(cpt) = `v`. -/
def compositorCreateSurfaceWayland (v : Nat) : Call :=
  Call.marshal WL_COMPOSITOR_CREATE_SURFACE (some WLIface.surface) v 0

/-- seatGetPointerWayland: marshals WL_SEAT_GET_POINTER against
pointerInterfaceWayland at proxyGetVersion(seat) = `v`. -/
def seatGetPointerWayland (v : Nat) : Call :=
  Call.marshal WL_SEAT_GET_POINTER (some WLIface.pointer) v 0

/-- seatGetKeyboardWayland: marshals WL_SEAT_GET_KEYBOARD against
keyboardInterfaceWayland at proxyGetVersion(seat) = `v`. -/
def seatGetKeyboardWayland (v : Nat) : Call :=
  Call.marshal WL_SEAT_GET_KEYBOARD (some WLIface.keyboard) v 0

/-- wmBaseGetXDGSurfaceXDG: marshals XDG_WM_BASE_GET_XDG_SURFACE against
surfaceInterfaceXDG at proxyGetVersion(wm) = `v`. -/
def wmBaseGetXDGSurfaceXDG (v : Nat) : Call :=
  Call.marshal XDG_WM_BASE_GET_XDG_SURFACE (some WLIface.surfaceXDG) v 0

/-- surfaceDamageBufferWayland: marshals WL_SURFACE_DAMAGE_BUFFER with no
new object at proxyGetVersion(sf) = `v`, flags 0; the wrapper performs no
version check of its own. -/
def surfaceDamageBufferWayland (v : Nat) : Call :=
  Call.marshal WL_SURFACE_DAMAGE_BUFFER none v 0

/-- registryDestroyWayland: wl_proxy_destroy only. -/
def registryDestroyWayland : Call := Call.destroyProxy

/-- compositorDestroyWayland: wl_proxy_destroy only. -/
def compositorDestroyWayland : Call := Call.destroyProxy

/-- shmDestroyWayland: wl_proxy_destroy only. -/
def shmDestroyWayland : Call := Call.destroyProxy

/-- seatDestroyWayland: wl_proxy_destroy only. -/
def seatDestroyWayland : Call := Call.destroyProxy

/-- pointerDestroyWayland: wl_proxy_destroy only. -/
def pointerDestroyWayland : Call := Call.destroyProxy

/-- keyboardDestroyWayland: wl_proxy_destroy only. -/
def keyboardDestroyWayland : Call := Call.destroyProxy

/-- bufferDestroyWayland: marshals the protocol destructor with
WL_MARSHAL_FLAG_DESTROY. -/
def bufferDestroyWayland (v : Nat) : Call :=
  Call.marshal WL_BUFFER_DESTROY none v WL_MARSHAL_FLAG_DESTROY

/-- shmPoolDestroyWayland: marshals the protocol destructor with
WL_MARSHAL_FLAG_DESTROY. -/
def shmPoolDestroyWayland (v : Nat) : Call :=
  Call.marshal WL_SHM_POOL_DESTROY none v WL_MARSHAL_FLAG_DESTROY

/-- surfaceDestroyWayland: marshals the protocol destructor with
WL_MARSHAL_FLAG_DESTROY. -/
def surfaceDestroyWayland (v : Nat) : Call :=
  Call.marshal WL_SURFACE_DESTROY none v WL_MARSHAL_FLAG_DESTROY

/-- wmBaseDestroyXDG: marshals the protocol destructor with
WL_MARSHAL_FLAG_DESTROY. -/
def wmBaseDestroyXDG (v : Nat) : Call :=
  Call.marshal XDG_WM_BASE_DESTROY none v WL_MARSHAL_FLAG_DESTROY

/-- positionerDestroyXDG: marshals the protocol destructor with
WL_MARSHAL_FLAG_DESTROY. -/
def positionerDestroyXDG (v : Nat) : Call :=
  Call.marshal XDG_POSITIONER_DESTROY none v WL_MARSHAL_FLAG_DESTROY

/-- surfaceDestroyXDG: marshals the protocol destructor with
WL_MARSHAL_FLAG_DESTROY. -/
def surfaceDestroyXDG (v : Nat) : Call :=
  Call.marshal XDG_SURFACE_DESTROY none v WL_MARSHAL_FLAG_DESTROY

/-- toplevelDestroyXDG: marshals the protocol destructor with
WL_MARSHAL_FLAG_DESTROY. -/
def toplevelDestroyXDG (v : Nat) : Call :=
  Call.marshal XDG_TOPLEVEL_DESTROY none v WL_MARSHAL_FLAG_DESTROY

/-- shmReleaseWayland: marshals the protocol destructor with
WL_MARSHAL_FLAG_DESTROY. -/
def shmReleaseWayland (v : Nat) : Call :=
  Call.marshal WL_SHM_RELEASE none v WL_MARSHAL_FLAG_DESTROY

/-- seatReleaseWayland: marshals the protocol destructor with
WL_MARSHAL_FLAG_DESTROY. -/
def seatReleaseWayland (v : Nat) : Call :=
  Call.marshal WL_SEAT_RELEASE none v WL_MARSHAL_FLAG_DESTROY

/-- pointerReleaseWayland: marshals the protocol destructor with
WL_MARSHAL_FLAG_DESTROY. -/
def pointerReleaseWayland (v : Nat) : Call :=
  Call.marshal WL_POINTER_RELEASE none v WL_MARSHAL_FLAG_DESTROY

/-- keyboardReleaseWayland: marshals the protocol destructor with
WL_MARSHAL_FLAG_DESTROY. -/
def keyboardReleaseWayland (v : Nat) : Call :=
  Call.marshal WL_KEYBOARD_RELEASE none v WL_MARSHAL_FLAG_DESTROY

/-! ## Listener tables and trampolines -/

/-- The static C trampoline functions of wsi_wayland.c that appear in the
listener tables. -/
inductive CFn where
  | registryGlobal
  | registryGlobalRemove
  | shmFormat
  | bufferRelease
  | surfaceEnter
  | surfaceLeave
  | surfacePreferredBufferScale
  | surfacePreferredBufferTransform
  | wmBasePing
  | surfaceConfigure
  | toplevelConfigure
  | toplevelClose
  | toplevelConfigureBounds
  | toplevelWMCapabilities
  | seatCapabilities
  | seatName
  | pointerEnter
  | pointerLeave
  | pointerMotion
  | pointerButton
  | pointerAxis
  | pointerFrame
  | pointerAxisSource
  | pointerAxisStop
  | pointerAxisDiscrete
  | keyboardKeymap
  | keyboardEnter
  | keyboardLeave
  | keyboardKey
  | keyboardModifiers
  | keyboardRepeatInfo
deriving DecidableEq

/-- The protocol event each trampoline handles (the listener struct field it
is assigned to). -/
def handlesEvent : CFn → String
  | .registryGlobal => "global"
  | .registryGlobalRemove => "global_remove"
  | .shmFormat => "format"
  | .bufferRelease => "release"
  | .surfaceEnter => "enter"
  | .surfaceLeave => "leave"
  | .surfacePreferredBufferScale => "preferred_buffer_scale"
  | .surfacePreferredBufferTransform => "preferred_buffer_transform"
  | .wmBasePing => "ping"
  | .surfaceConfigure => "configure"
  | .toplevelConfigure => "configure"
  | .toplevelClose => "close"
  | .toplevelConfigureBounds => "configure_bounds"
  | .toplevelWMCapabilities => "wm_capabilities"
  | .seatCapabilities => "capabilities"
  | .seatName => "name"
  | .pointerEnter => "enter"
  | .pointerLeave => "leave"
  | .pointerMotion => "motion"
  | .pointerButton => "button"
  | .pointerAxis => "axis"
  | .pointerFrame => "frame"
  | .pointerAxisSource => "axis_source"
  | .pointerAxisStop => "axis_stop"
  | .pointerAxisDiscrete => "axis_discrete"
  | .keyboardKeymap => "keymap"
  | .keyboardEnter => "enter"
  | .keyboardLeave => "leave"
  | .keyboardKey => "key"
  | .keyboardModifiers => "modifiers"
  | .keyboardRepeatInfo => "repeat_info"

/-- The `static const struct wl_registry_listener ltn` of
registryAddListenerWayland, slots in listener-struct (= protocol event)
order; `some` marks an explicitly filled slot. -/
def registryLtn : List (Option CFn) :=
  [some CFn.registryGlobal, some CFn.registryGlobalRemove]

/-- The static listener of shmAddListenerWayland. -/
def shmLtn : List (Option CFn) :=
  [some CFn.shmFormat]

/-- The static listener of bufferAddListenerWayland. -/
def bufferLtn : List (Option CFn) :=
  [some CFn.bufferRelease]

/-- The static listener of surfaceAddListenerWayland. -/
def surfaceLtn : List (Option CFn) :=
  [some CFn.surfaceEnter, some CFn.surfaceLeave,
   some CFn.surfacePreferredBufferScale, some CFn.surfacePreferredBufferTransform]

/-- The static listener of wmBaseAddListenerXDG. -/
def wmBaseLtn : List (Option CFn) :=
  [some CFn.wmBasePing]

/-- The static listener of surfaceAddListenerXDG. -/
def surfaceXDGLtn : List (Option CFn) :=
  [some CFn.surfaceConfigure]

/-- The static listener of toplevelAddListenerXDG. -/
def toplevelLtn : List (Option CFn) :=
  [some CFn.toplevelConfigure, some CFn.toplevelClose,
   some CFn.toplevelConfigureBounds, some CFn.toplevelWMCapabilities]

/-- The static listener of seatAddListenerWayland. -/
def seatLtn : List (Option CFn) :=
  [some CFn.seatCapabilities, some CFn.seatName]

/-- The static listener of pointerAddListenerWayland. -/
def pointerLtn : List (Option CFn) :=
  [some CFn.pointerEnter, some CFn.pointerLeave, some CFn.pointerMotion,
   some CFn.pointerButton, some CFn.pointerAxis, some CFn.pointerFrame,
   some CFn.pointerAxisSource, some CFn.pointerAxisStop, some CFn.pointerAxisDiscrete]

/-- The static listener of keyboardAddListenerWayland. -/
def keyboardLtn : List (Option CFn) :=
  [some CFn.keyboardKeymap, some CFn.keyboardEnter, some CFn.keyboardLeave,
   some CFn.keyboardKey, some CFn.keyboardModifiers, some CFn.keyboardRepeatInfo]

/-- One wl_proxy_add_listener call: the proxy it is registered on, the
listener table passed (always the address of a file-scoped static), and the
user-data argument (always NULL in wsi_wayland.c). -/
structure RegisterCall where
  proxy : Nat
  table : List (Option CFn)
  userData : Option Nat
deriving DecidableEq

/-- registryAddListenerWayland. -/
def registryAddListenerWayland (rty : Nat) : RegisterCall :=
  { proxy := rty, table := registryLtn, userData := none }

/-- shmAddListenerWayland. -/
def shmAddListenerWayland (shm : Nat) : RegisterCall :=
  { proxy := shm, table := shmLtn, userData := none }

/-- bufferAddListenerWayland. -/
def bufferAddListenerWayland (buf : Nat) : RegisterCall :=
  { proxy := buf, table := bufferLtn, userData := none }

/-- surfaceAddListenerWayland. -/
def surfaceAddListenerWayland (sf : Nat) : RegisterCall :=
  { proxy := sf, table := surfaceLtn, userData := none }

/-- wmBaseAddListenerXDG. -/
def wmBaseAddListenerXDG (wm : Nat) : RegisterCall :=
  { proxy := wm, table := wmBaseLtn, userData := none }

/-- surfaceAddListenerXDG. -/
def surfaceAddListenerXDG (xsf : Nat) : RegisterCall :=
  { proxy := xsf, table := surfaceXDGLtn, userData := none }

/-- toplevelAddListenerXDG. -/
def toplevelAddListenerXDG (tl : Nat) : RegisterCall :=
  { proxy := tl, table := toplevelLtn, userData := none }

/-- seatAddListenerWayland. -/
def seatAddListenerWayland (seat : Nat) : RegisterCall :=
  { proxy := seat, table := seatLtn, userData := none }

/-- pointerAddListenerWayland. -/
def pointerAddListenerWayland (pt : Nat) : RegisterCall :=
  { proxy := pt, table := pointerLtn, userData := none }

/-- keyboardAddListenerWayland. -/
def keyboardAddListenerWayland (kb : Nat) : RegisterCall :=
  { proxy := kb, table := keyboardLtn, userData := none }

/-- Calls across the host (cgo-exported) callback boundary, carrying exactly
the arguments the trampolines forward. -/
inductive HostCall where
  | shmFormatWayland (format : Nat)
  | seatCapabilitiesWayland (capab : Nat)
  | pointerMotionWayland (millis : Nat) (x y : Int)
  | surfaceEnterWayland (sf : Nat) (out : Nat)
  | bufferReleaseWayland (buf : Nat)
deriving DecidableEq

/-- Trampoline shmFormat: drops data_ and the shm proxy, forwards only the
format value. -/
def shmFormat (data_ shm_ : Nat) (format : Nat) : HostCall :=
  HostCall.shmFormatWayland format

/-- Trampoline seatCapabilities: drops data_ and the seat proxy. -/
def seatCapabilities (data_ seat_ : Nat) (capab : Nat) : HostCall :=
  HostCall.seatCapabilitiesWayland capab

/-- Trampoline pointerMotion: drops data_ and the pointer proxy. -/
def pointerMotion (data_ pt_ : Nat) (millis : Nat) (x y : Int) : HostCall :=
  HostCall.pointerMotionWayland millis x y

/-- Trampoline surfaceEnter: forwards the surface proxy and output proxy. -/
def surfaceEnter (data_ sf out : Nat) : HostCall :=
  HostCall.surfaceEnterWayland sf out

/-- Trampoline bufferRelease: forwards the buffer proxy. -/
def bufferRelease (data_ buf : Nat) : HostCall :=
  HostCall.bufferReleaseWayland buf

/-! ## String-carrying event handlers (registryGlobal, seatName) -/

/-- A C string buffer: allocation address plus contents. -/
structure StrBuf where
  addr : Nat
  content : String
deriving DecidableEq

/-- strdup: given the address malloc would return (none when allocation
fails), duplicates the buffer contents into that fresh allocation. -/
def strdup (freshAddr : Option Nat) (s : StrBuf) : Option StrBuf :=
  freshAddr.map (fun a => { addr := a, content := s.content })

/-- Observable steps of one handler activation.  The constructors
errorSignal and teardown exist so that their absence from a handler's step
list is meaningful. -/
inductive DispatchEvt where
  | alloc (addr : Nat)
  | hostGlobal (name : Nat) (s : StrBuf) (vers : Nat)
  | hostSeatName (s : StrBuf)
  | free (addr : Nat)
  | errorSignal
  | teardown
deriving DecidableEq

/-- The registryGlobal trampoline: strdup the interface name; on failure
return at once (no host call, no error, no teardown); on success invoke
registryGlobalWayland with the copy, then free the copy. -/
def registryGlobalHandler (freshAddr : Option Nat) (name : Nat) (iface : StrBuf)
    (vers : Nat) : List DispatchEvt :=
  match strdup freshAddr iface with
  | none => []
  | some s => [.alloc s.addr, .hostGlobal name s vers, .free s.addr]

/-- The seatName trampoline: strdup the seat name; on failure return at
once; on success invoke seatNameWayland with the copy, then free it. -/
def seatNameHandler (freshAddr : Option Nat) (nm : StrBuf) : List DispatchEvt :=
  match strdup freshAddr nm with
  | none => []
  | some s => [.alloc s.addr, .hostSeatName s, .free s.addr]

/-- Sequential dispatch of queued registry global events: each handler runs
to completion and dispatch then continues with the rest of the queue. -/
def dispatchRegistryGlobals : List (Option Nat × Nat × StrBuf × Nat) → List DispatchEvt
  | [] => []
  | (freshAddr, name, iface, vers) :: rest =>
    registryGlobalHandler freshAddr name iface vers ++ dispatchRegistryGlobals rest

/-! ## XCB backend symbol table (wsi_xcb.h) -/

/-- The `const char* const nameXCB[]` table. -/
def nameXCB : List String :=
  ["xcb_connect",
   "xcb_disconnect",
   "xcb_flush",
   "xcb_connection_has_error",
   "xcb_generate_id",
   "xcb_poll_for_event",
   "xcb_request_check",
   "xcb_get_setup",
   "xcb_setup_roots_iterator",
   "xcb_create_window_checked",
   "xcb_destroy_window",
   "xcb_map_window_checked",
   "xcb_unmap_window_checked",
   "xcb_configure_window_checked",
   "xcb_intern_atom",
   "xcb_intern_atom_reply",
   "xcb_change_property_checked",
   "xcb_change_keyboard_control_checked"]

/-- The index macros of wsi_xcb.h. -/
def CONNECT_XCB : Nat := 0

def DISCONNECT_XCB : Nat := 1

def FLUSH_XCB : Nat := 2

def CONNECTION_HAS_ERROR_XCB : Nat := 3

def GENERATE_ID_XCB : Nat := 4

def POLL_FOR_EVENT_XCB : Nat := 5

def REQUEST_CHECK_XCB : Nat := 6

def GET_SETUP_XCB : Nat := 7

def SETUP_ROOTS_ITERATOR_XCB : Nat := 8

def CREATE_WINDOW_CHECKED_XCB : Nat := 9

def DESTROY_WINDOW_XCB : Nat := 10

def MAP_WINDOW_CHECKED_XCB : Nat := 11

def UNMAP_WINDOW_CHECKED_XCB : Nat := 12

def CONFIGURE_WINDOW_CHECKED_XCB : Nat := 13

def INTERN_ATOM_XCB : Nat := 14

def INTERN_ATOM_REPLY_XCB : Nat := 15

def CHANGE_PROPERTY_CHECKED_XCB : Nat := 16

def CHANGE_KEYBOARD_CONTROL_CHECKED_XCB : Nat := 17

/-- `void* ptrXCB[sizeof(nameXCB)/sizeof(nameXCB[0])] = {0}`: the pointer
table in its initial, zero-filled state. -/
def ptrXCB : List (Option Nat) :=
  List.replicate nameXCB.length none

/-- connectXCB fetches and invokes ptrXCB[CONNECT_XCB]; the model returns
the fetched pointer. -/
def connectXCB (ptr : List (Option Nat)) : Option Nat :=
  ptr.getD CONNECT_XCB none

/-- disconnectXCB fetches and invokes ptrXCB[DISCONNECT_XCB]. -/
def disconnectXCB (ptr : List (Option Nat)) : Option Nat :=
  ptr.getD DISCONNECT_XCB none

/-- flushXCB fetches and invokes ptrXCB[FLUSH_XCB]. -/
def flushXCB (ptr : List (Option Nat)) : Option Nat :=
  ptr.getD FLUSH_XCB none

/-- connectionHasErrorXCB fetches and invokes
ptrXCB[CONNECTION_HAS_ERROR_XCB]. -/
def connectionHasErrorXCB (ptr : List (Option Nat)) : Option Nat :=
  ptr.getD CONNECTION_HAS_ERROR_XCB none

/-- generateIdXCB fetches and invokes ptrXCB[GENERATE_ID_XCB]. -/
def generateIdXCB (ptr : List (Option Nat)) : Option Nat :=
  ptr.getD GENERATE_ID_XCB none

/-- pollForEventXCB fetches and invokes ptrXCB[POLL_FOR_EVENT_XCB]. -/
def pollForEventXCB (ptr : List (Option Nat)) : Option Nat :=
  ptr.getD POLL_FOR_EVENT_XCB none

/-- requestCheckXCB fetches and invokes ptrXCB[REQUEST_CHECK_XCB]. -/
def requestCheckXCB (ptr : List (Option Nat)) : Option Nat :=
  ptr.getD REQUEST_CHECK_XCB none

/-- getSetupXCB fetches and invokes ptrXCB[GET_SETUP_XCB]. -/
def getSetupXCB (ptr : List (Option Nat)) : Option Nat :=
  ptr.getD GET_SETUP_XCB none

/-- setupRootsIteratorXCB fetches and invokes
ptrXCB[SETUP_ROOTS_ITERATOR_XCB]. -/
def setupRootsIteratorXCB (ptr : List (Option Nat)) : Option Nat :=
  ptr.getD SETUP_ROOTS_ITERATOR_XCB none

/-- createWindowCheckedXCB fetches and invokes
ptrXCB[CREATE_WINDOW_CHECKED_XCB]. -/
def createWindowCheckedXCB (ptr : List (Option Nat)) : Option Nat :=
  ptr.getD CREATE_WINDOW_CHECKED_XCB none

/-- destroyWindowXCB fetches and invokes ptrXCB[DESTROY_WINDOW_XCB]. -/
def destroyWindowXCB (ptr : List (Option Nat)) : Option Nat :=
  ptr.getD DESTROY_WINDOW_XCB none

/-- mapWindowCheckedXCB fetches and invokes ptrXCB[MAP_WINDOW_CHECKED_XCB]. -/
def mapWindowCheckedXCB (ptr : List (Option Nat)) : Option Nat :=
  ptr.getD MAP_WINDOW_CHECKED_XCB none

/-- unmapWindowCheckedXCB fetches and invokes
ptrXCB[UNMAP_WINDOW_CHECKED_XCB]. -/
def unmapWindowCheckedXCB (ptr : List (Option Nat)) : Option Nat :=
  ptr.getD UNMAP_WINDOW_CHECKED_XCB none

/-- configureWindowCheckedXCB fetches and invokes
ptrXCB[CONFIGURE_WINDOW_CHECKED_XCB]. -/
def configureWindowCheckedXCB (ptr : List (Option Nat)) : Option Nat :=
  ptr.getD CONFIGURE_WINDOW_CHECKED_XCB none

/-- internAtomXCB fetches and invokes ptrXCB[INTERN_ATOM_XCB]. -/
def internAtomXCB (ptr : List (Option Nat)) : Option Nat :=
  ptr.getD INTERN_ATOM_XCB none

/-- internAtomReplyXCB fetches and invokes ptrXCB[INTERN_ATOM_REPLY_XCB]. -/
def internAtomReplyXCB (ptr : List (Option Nat)) : Option Nat :=
  ptr.getD INTERN_ATOM_REPLY_XCB none

/-- changePropertyCheckedXCB fetches and invokes
ptrXCB[CHANGE_PROPERTY_CHECKED_XCB]. -/
def changePropertyCheckedXCB (ptr : List (Option Nat)) : Option Nat :=
  ptr.getD CHANGE_PROPERTY_CHECKED_XCB none

/-- changeKeyboardControlCheckedXCB fetches and invokes
ptrXCB[CHANGE_KEYBOARD_CONTROL_CHECKED_XCB]. -/
def changeKeyboardControlCheckedXCB (ptr : List (Option Nat)) : Option Nat :=
  ptr.getD CHANGE_KEYBOARD_CONTROL_CHECKED_XCB none

/-! ## Theorems -/

/-- Claim C1 (amended): whenever any of the ten required symbols cannot be
resolved, openWayland returns NULL and dlcloses the partially-opened
library handle.  (The function-pointer variables assigned before the
failing symbol keep their new values, so the binding set is not restored to
its pre-call state; see the counterexample.) -/
theorem openWayland_fails_atomically (h : Nat) (dlsym : Nat → String → Option Nat)
    (st : WLFns) (hmiss : ∃ s ∈ requiredSymbolsWayland, dlsym h s = none) :
    (openWayland (some h) dlsym st).ret = none ∧
    (openWayland (some h) dlsym st).dlclosed = true := by
  obtain ⟨s, hs, hnone⟩ := hmiss
  rcases hc1 : dlsym h "wl_display_connect" with _ | p1
  · simp [openWayland, hc1]
  rcases hc2 : dlsym h "wl_display_disconnect" with _ | p2
  · simp [openWayland, hc1, hc2]
  rcases hc3 : dlsym h "wl_display_dispatch" with _ | p3
  · simp [openWayland, hc1, hc2, hc3]
  rcases hc4 : dlsym h "wl_display_dispatch_pending" with _ | p4
  · simp [openWayland, hc1, hc2, hc3, hc4]
  rcases hc5 : dlsym h "wl_display_flush" with _ | p5
  · simp [openWayland, hc1, hc2, hc3, hc4, hc5]
  rcases hc6 : dlsym h "wl_display_roundtrip" with _ | p6
  · simp [openWayland, hc1, hc2, hc3, hc4, hc5, hc6]
  rcases hc7 : dlsym h "wl_proxy_destroy" with _ | p7
  · simp [openWayland, hc1, hc2, hc3, hc4, hc5, hc6, hc7]
  rcases hc8 : dlsym h "wl_proxy_add_listener" with _ | p8
  · simp [openWayland, hc1, hc2, hc3, hc4, hc5, hc6, hc7, hc8]
  rcases hc9 : dlsym h "wl_proxy_get_version" with _ | p9
  · simp [openWayland, hc1, hc2, hc3, hc4, hc5, hc6, hc7, hc8, hc9]
  rcases hc10 : dlsym h "wl_proxy_marshal_flags" with _ | p10
  · simp [openWayland, hc1, hc2, hc3, hc4, hc5, hc6, hc7, hc8, hc9, hc10]
  exfalso
  simp only [requiredSymbolsWayland, List.mem_cons, List.not_mem_nil, or_false] at hs
  rcases hs with rfl | rfl | rfl | rfl | rfl | rfl | rfl | rfl | rfl | rfl <;> simp_all

/-- Witness for openWayland_fails_atomically: a resolver that misses
wl_display_disconnect makes openWayland return NULL and dlclose. -/
theorem openWayland_fails_atomically_witness :
    (openWayland (some 7) symConnectOnly wlFnsNull).ret = none ∧
    (openWayland (some 7) symConnectOnly wlFnsNull).dlclosed = true :=
  openWayland_fails_atomically 7 symConnectOnly wlFnsNull
    ⟨"wl_display_disconnect", by decide, by decide⟩

/-- Claim C1 counterexample: with a resolver that resolves only
wl_display_connect, the open fails (NULL return, handle dlclosed) yet the
static binding set afterwards differs from its pre-call state — the
displayConnect pointer was already assigned and is left in place, so the
construction is not all-or-nothing in the claimed sense. -/
theorem openWayland_partial_bindings_remain :
    (openWayland (some 7) symConnectOnly wlFnsNull).ret = none ∧
    (openWayland (some 7) symConnectOnly wlFnsNull).dlclosed = true ∧
    (openWayland (some 7) symConnectOnly wlFnsNull).fns ≠ wlFnsNull ∧
    (openWayland (some 7) symConnectOnly wlFnsNull).fns.displayConnect = some 1 := by
  decide

/-- Claim C2 (amended): every proxy-creating wrapper binds the new proxy at
exactly the parent proxy's negotiated version (the proxyGetVersion result
it passes to wl_proxy_marshal_flags); no minimum with the target
interface's advertised max version is taken and no per-argument gate is
applied. -/
theorem created_proxy_version_eq_parent (v : Nat) :
    newProxyVersion (compositorCreateSurfaceWayland v) = some v ∧
    newProxyVersion (seatGetPointerWayland v) = some v ∧
    newProxyVersion (seatGetKeyboardWayland v) = some v ∧
    newProxyVersion (displayGetRegistryWayland v) = some v ∧
    newProxyVersion (wmBaseGetXDGSurfaceXDG v) = some v :=
  ⟨rfl, rfl, rfl, rfl, rfl⟩

/-- Claim C2 counterexample: a wl_seat proxy legitimately bound at version
9 (the seat descriptor's advertised max) yields, through
seatGetPointerWayland, a wl_pointer proxy bound at version 9 — not at
min(9, 7) = 7 — exceeding the pointer descriptor's advertised max 7. -/
theorem seatGetPointer_version_exceeds_max :
    (9 : Nat) ≤ (interfaceOf WLIface.seat).version ∧
    (interfaceOf WLIface.pointer).version = 7 ∧
    newProxyVersion (seatGetPointerWayland 9) = some 9 ∧
    newProxyVersion (seatGetPointerWayland 9)
      ≠ some (min 9 (interfaceOf WLIface.pointer).version) := by
  decide

/-- Claim C3 (amended): no version-gate check is performed by the layer.
The wrappers for gated methods marshal the request unconditionally, at any
proxy version, so bytes are sent even below the descriptor's gate; the
gate digits exist only as data in the descriptor signature strings. -/
theorem version_gates_not_enforced (v : Nat) :
    marshalWire (surfaceDamageBufferWayland v) = [WireStep.send WL_SURFACE_DAMAGE_BUFFER] ∧
    marshalWire (keyboardReleaseWayland v)
      = [WireStep.send WL_KEYBOARD_RELEASE, WireStep.destroyed] ∧
    marshalWire (shmReleaseWayland v) = [WireStep.send WL_SHM_RELEASE, WireStep.destroyed] ∧
    sigMinVersion ((surfaceInterfaceWayland.methods.getD WL_SURFACE_DAMAGE_BUFFER msgNil).signature) = 4 ∧
    sigMinVersion ((keyboardInterfaceWayland.methods.getD WL_KEYBOARD_RELEASE msgNil).signature) = 3 ∧
    sigMinVersion ((shmInterfaceWayland.methods.getD WL_SHM_RELEASE msgNil).signature) = 2 := by
  refine ⟨rfl, rfl, rfl, ?_, ?_, ?_⟩ <;> decide

/-- Claim C3 counterexample: wl_surface.damage_buffer carries gate 4, yet
invoking surfaceDamageBufferWayland on a surface proxy of version 1 still
sends the request on the wire — nothing rejects it. -/
theorem damageBuffer_marshalled_below_gate :
    (surfaceInterfaceWayland.methods.getD WL_SURFACE_DAMAGE_BUFFER msgNil).name
      = "damage_buffer" ∧
    sigMinVersion ((surfaceInterfaceWayland.methods.getD WL_SURFACE_DAMAGE_BUFFER msgNil).signature) = 4 ∧
    (1 : Nat) < 4 ∧
    marshalWire (surfaceDamageBufferWayland 1) = [WireStep.send WL_SURFACE_DAMAGE_BUFFER] := by
  decide

/-- Claim C4 (amended): in every method and event entry of all nineteen
descriptors, the nested-interface array has at least as many entries as the
signature declares argument positions (so walking the signature never
over-reads the array), and every non-NULL interface entry sits at an
object-typed ('o' or 'n') position within the declared argument count —
all other positions hold the NULL sentinel. -/
theorem descriptor_tables_wellformed :
    ∀ i : WLIface, ∀ m ∈ (interfaceOf i).methods ++ (interfaceOf i).events, msgTypesOK m := by
  intro i
  cases i <;> decide

/-- Witness for descriptor_tables_wellformed at the wl_registry bind
entry. -/
theorem descriptor_tables_wellformed_witness :
    msgTypesOK { name := "bind", signature := "usun", types := nullInterface } :=
  descriptor_tables_wellformed WLIface.registry
    { name := "bind", signature := "usun", types := nullInterface } (by decide)

/-- Claim C4 counterexample: the wl_callback "done" event declares one
argument position but its associated array is the shared nullInterface
array of eight entries, so the claimed count equality fails; moreover the
wl_registry "bind" method's 'n' position holds the NULL sentinel rather
than a valid interface descriptor. -/
theorem argcount_not_equal_types_len :
    ((interfaceOf WLIface.callback).events.map
      (fun m => ((sigArgs m.signature).length, m.types.length))) = [(1, 8)] ∧
    (1 : Nat) ≠ 8 ∧
    (sigArgs ((interfaceOf WLIface.registry).methods.getD WL_REGISTRY_BIND msgNil).signature).getD 3 ' ' = 'n' ∧
    ((interfaceOf WLIface.registry).methods.getD WL_REGISTRY_BIND msgNil).types.getD 3 none = none := by
  decide

/-- Claim C5 (confirmed): each of the ten add-listener wrappers registers a
table that supplies exactly one callback per event of its interface
descriptor, slot i handling event i (the descriptor's event order), with
no slot left unfilled or as garbage. -/
theorem listener_tables_cover_descriptor_events :
    registryLtn.map (Option.map handlesEvent)
      = (interfaceOf WLIface.registry).events.map (fun m => some m.name) ∧
    shmLtn.map (Option.map handlesEvent)
      = (interfaceOf WLIface.shm).events.map (fun m => some m.name) ∧
    bufferLtn.map (Option.map handlesEvent)
      = (interfaceOf WLIface.buffer).events.map (fun m => some m.name) ∧
    surfaceLtn.map (Option.map handlesEvent)
      = (interfaceOf WLIface.surface).events.map (fun m => some m.name) ∧
    wmBaseLtn.map (Option.map handlesEvent)
      = (interfaceOf WLIface.wmBase).events.map (fun m => some m.name) ∧
    surfaceXDGLtn.map (Option.map handlesEvent)
      = (interfaceOf WLIface.surfaceXDG).events.map (fun m => some m.name) ∧
    toplevelLtn.map (Option.map handlesEvent)
      = (interfaceOf WLIface.toplevel).events.map (fun m => some m.name) ∧
    seatLtn.map (Option.map handlesEvent)
      = (interfaceOf WLIface.seat).events.map (fun m => some m.name) ∧
    pointerLtn.map (Option.map handlesEvent)
      = (interfaceOf WLIface.pointer).events.map (fun m => some m.name) ∧
    keyboardLtn.map (Option.map handlesEvent)
      = (interfaceOf WLIface.keyboard).events.map (fun m => some m.name) := by
  decide

/-- Claim C6 (amended): wl_proxy_add_listener is applied to the given
proxy, but every proxy of an interface receives the same file-scoped static
handler table with NULL user data, and the registry, shm, seat, pointer
and keyboard trampolines do not forward the originating proxy to the host
callback (the buffer and surface trampolines do), so handler sets are
per-interface, not per-instance. -/
theorem listener_registration_global_tables (d pt sf out m capab fmt buf : Nat)
    (x y : Int) :
    (pointerAddListenerWayland pt).proxy = pt ∧
    (pointerAddListenerWayland pt).table = pointerLtn ∧
    (pointerAddListenerWayland pt).userData = none ∧
    pointerMotion d pt m x y = HostCall.pointerMotionWayland m x y ∧
    seatCapabilities d pt capab = HostCall.seatCapabilitiesWayland capab ∧
    shmFormat d pt fmt = HostCall.shmFormatWayland fmt ∧
    surfaceEnter d sf out = HostCall.surfaceEnterWayland sf out ∧
    bufferRelease d buf = HostCall.bufferReleaseWayland buf :=
  ⟨rfl, rfl, rfl, rfl, rfl, rfl, rfl, rfl⟩

/-- Claim C6 counterexample: two distinct wl_pointer proxies registered via
pointerAddListenerWayland get the identical static handler table and user
data, and a dispatched motion handler produces the identical host call for
either proxy — the host callback boundary cannot identify which proxy the
event originated from. -/
theorem listener_state_not_instance_scoped :
    (pointerAddListenerWayland 1).table = (pointerAddListenerWayland 2).table ∧
    (pointerAddListenerWayland 1).userData = (pointerAddListenerWayland 2).userData ∧
    pointerMotion 0 1 10 3 4 = pointerMotion 0 2 10 3 4 ∧
    (1 : Nat) ≠ 2 := by
  decide

/-- Claim C7 (confirmed): the registry "global" and seat "name" handlers
hand the host a freshly allocated strdup copy of the transport string — an
allocation at a different address with equal contents — and the copy is
made (alloc step) before the host callback step. -/
theorem string_events_copied (a n v : Nat) (iface nm : StrBuf)
    (hi : a ≠ iface.addr) (hn : a ≠ nm.addr) :
    registryGlobalHandler (some a) n iface v
      = [DispatchEvt.alloc a,
         DispatchEvt.hostGlobal n { addr := a, content := iface.content } v,
         DispatchEvt.free a] ∧
    a ≠ iface.addr ∧
    seatNameHandler (some a) nm
      = [DispatchEvt.alloc a,
         DispatchEvt.hostSeatName { addr := a, content := nm.content },
         DispatchEvt.free a] ∧
    a ≠ nm.addr :=
  ⟨rfl, hi, rfl, hn⟩

/-- Witness for string_events_copied at a concrete fresh address and
concrete transport buffers. -/
theorem string_events_copied_witness :
    registryGlobalHandler (some 5) 1 { addr := 0, content := "wl_seat" } 9
      = [DispatchEvt.alloc 5,
         DispatchEvt.hostGlobal 1 { addr := 5, content := "wl_seat" } 9,
         DispatchEvt.free 5] ∧
    (5 : Nat) ≠ 0 ∧
    seatNameHandler (some 5) { addr := 3, content := "seat0" }
      = [DispatchEvt.alloc 5,
         DispatchEvt.hostSeatName { addr := 5, content := "seat0" },
         DispatchEvt.free 5] ∧
    (5 : Nat) ≠ 3 :=
  string_events_copied 5 1 9 { addr := 0, content := "wl_seat" }
    { addr := 3, content := "seat0" } (by decide) (by decide)

/-- Claim C8 (confirmed): nameXCB holds exactly the eighteen XCB entry
points in index order, ptrXCB has the same length, and each inline wrapper
invokes the pointer stored at the index whose nameXCB entry is the XCB
function it wraps. -/
theorem xcb_table_and_wrappers (p : List (Option Nat)) :
    nameXCB.length = 18 ∧
    ptrXCB.length = nameXCB.length ∧
    connectXCB p = p.getD CONNECT_XCB none ∧
    nameXCB.getD CONNECT_XCB "" = "xcb_connect" ∧
    disconnectXCB p = p.getD DISCONNECT_XCB none ∧
    nameXCB.getD DISCONNECT_XCB "" = "xcb_disconnect" ∧
    flushXCB p = p.getD FLUSH_XCB none ∧
    nameXCB.getD FLUSH_XCB "" = "xcb_flush" ∧
    connectionHasErrorXCB p = p.getD CONNECTION_HAS_ERROR_XCB none ∧
    nameXCB.getD CONNECTION_HAS_ERROR_XCB "" = "xcb_connection_has_error" ∧
    generateIdXCB p = p.getD GENERATE_ID_XCB none ∧
    nameXCB.getD GENERATE_ID_XCB "" = "xcb_generate_id" ∧
    pollForEventXCB p = p.getD POLL_FOR_EVENT_XCB none ∧
    nameXCB.getD POLL_FOR_EVENT_XCB "" = "xcb_poll_for_event" ∧
    requestCheckXCB p = p.getD REQUEST_CHECK_XCB none ∧
    nameXCB.getD REQUEST_CHECK_XCB "" = "xcb_request_check" ∧
    getSetupXCB p = p.getD GET_SETUP_XCB none ∧
    nameXCB.getD GET_SETUP_XCB "" = "xcb_get_setup" ∧
    setupRootsIteratorXCB p = p.getD SETUP_ROOTS_ITERATOR_XCB none ∧
    nameXCB.getD SETUP_ROOTS_ITERATOR_XCB "" = "xcb_setup_roots_iterator" ∧
    createWindowCheckedXCB p = p.getD CREATE_WINDOW_CHECKED_XCB none ∧
    nameXCB.getD CREATE_WINDOW_CHECKED_XCB "" = "xcb_create_window_checked" ∧
    destroyWindowXCB p = p.getD DESTROY_WINDOW_XCB none ∧
    nameXCB.getD DESTROY_WINDOW_XCB "" = "xcb_destroy_window" ∧
    mapWindowCheckedXCB p = p.getD MAP_WINDOW_CHECKED_XCB none ∧
    nameXCB.getD MAP_WINDOW_CHECKED_XCB "" = "xcb_map_window_checked" ∧
    unmapWindowCheckedXCB p = p.getD UNMAP_WINDOW_CHECKED_XCB none ∧
    nameXCB.getD UNMAP_WINDOW_CHECKED_XCB "" = "xcb_unmap_window_checked" ∧
    configureWindowCheckedXCB p = p.getD CONFIGURE_WINDOW_CHECKED_XCB none ∧
    nameXCB.getD CONFIGURE_WINDOW_CHECKED_XCB "" = "xcb_configure_window_checked" ∧
    internAtomXCB p = p.getD INTERN_ATOM_XCB none ∧
    nameXCB.getD INTERN_ATOM_XCB "" = "xcb_intern_atom" ∧
    internAtomReplyXCB p = p.getD INTERN_ATOM_REPLY_XCB none ∧
    nameXCB.getD INTERN_ATOM_REPLY_XCB "" = "xcb_intern_atom_reply" ∧
    changePropertyCheckedXCB p = p.getD CHANGE_PROPERTY_CHECKED_XCB none ∧
    nameXCB.getD CHANGE_PROPERTY_CHECKED_XCB "" = "xcb_change_property_checked" ∧
    changeKeyboardControlCheckedXCB p = p.getD CHANGE_KEYBOARD_CONTROL_CHECKED_XCB none ∧
    nameXCB.getD CHANGE_KEYBOARD_CONTROL_CHECKED_XCB "" = "xcb_change_keyboard_control_checked" :=
  ⟨rfl, rfl, rfl, rfl, rfl, rfl, rfl, rfl, rfl, rfl, rfl, rfl, rfl, rfl,
   rfl, rfl, rfl, rfl, rfl, rfl, rfl, rfl, rfl, rfl, rfl, rfl, rfl, rfl,
   rfl, rfl, rfl, rfl, rfl, rfl, rfl, rfl, rfl, rfl⟩

/-- Claim C9 (confirmed): the six local destroy wrappers call only
wl_proxy_destroy and put no request on the wire, while the protocol
destructor wrappers marshal their destructor opcode with
WL_MARSHAL_FLAG_DESTROY, so the proxy is destroyed only after that request
is encoded (the send step precedes the destroyed step). -/
theorem destroy_wrappers_two_classes (v : Nat) :
    marshalWire registryDestroyWayland = [WireStep.destroyed] ∧
    marshalWire compositorDestroyWayland = [WireStep.destroyed] ∧
    marshalWire shmDestroyWayland = [WireStep.destroyed] ∧
    marshalWire seatDestroyWayland = [WireStep.destroyed] ∧
    marshalWire pointerDestroyWayland = [WireStep.destroyed] ∧
    marshalWire keyboardDestroyWayland = [WireStep.destroyed] ∧
    marshalWire (bufferDestroyWayland v)
      = [WireStep.send WL_BUFFER_DESTROY, WireStep.destroyed] ∧
    marshalWire (shmPoolDestroyWayland v)
      = [WireStep.send WL_SHM_POOL_DESTROY, WireStep.destroyed] ∧
    marshalWire (surfaceDestroyWayland v)
      = [WireStep.send WL_SURFACE_DESTROY, WireStep.destroyed] ∧
    marshalWire (wmBaseDestroyXDG v)
      = [WireStep.send XDG_WM_BASE_DESTROY, WireStep.destroyed] ∧
    marshalWire (positionerDestroyXDG v)
      = [WireStep.send XDG_POSITIONER_DESTROY, WireStep.destroyed] ∧
    marshalWire (surfaceDestroyXDG v)
      = [WireStep.send XDG_SURFACE_DESTROY, WireStep.destroyed] ∧
    marshalWire (toplevelDestroyXDG v)
      = [WireStep.send XDG_TOPLEVEL_DESTROY, WireStep.destroyed] ∧
    marshalWire (shmReleaseWayland v)
      = [WireStep.send WL_SHM_RELEASE, WireStep.destroyed] ∧
    marshalWire (seatReleaseWayland v)
      = [WireStep.send WL_SEAT_RELEASE, WireStep.destroyed] ∧
    marshalWire (pointerReleaseWayland v)
      = [WireStep.send WL_POINTER_RELEASE, WireStep.destroyed] ∧
    marshalWire (keyboardReleaseWayland v)
      = [WireStep.send WL_KEYBOARD_RELEASE, WireStep.destroyed] :=
  ⟨rfl, rfl, rfl, rfl, rfl, rfl, rfl, rfl, rfl, rfl, rfl, rfl, rfl, rfl,
   rfl, rfl, rfl⟩

/-- Claim C10 (confirmed): when strdup fails, the registry "global" and
seat "name" handlers return with no observable step at all — no host
callback, no error signal, no teardown — and a subsequent queued event is
still dispatched normally. -/
theorem strdup_failure_drops_event (n v a n2 v2 : Nat) (iface nm s2 : StrBuf) :
    registryGlobalHandler none n iface v = [] ∧
    seatNameHandler none nm = [] ∧
    dispatchRegistryGlobals [(none, n, iface, v), (some a, n2, s2, v2)]
      = [DispatchEvt.alloc a,
         DispatchEvt.hostGlobal n2 { addr := a, content := s2.content } v2,
         DispatchEvt.free a] :=
  ⟨rfl, rfl, rfl⟩
